import Mathlib

/-!
Verification of the mode-reconciliation core of `toolbar_api.py`
(repository `Docker_NoVnc_Wine`, file `defaults/scripts/toolbar_api.py`).

The Python program is shallowly embedded.  Pure helpers (service registry,
status parsing, `stack_running`) become Lean functions.  The stateful core
(`ensure_ready` and the external calls it orchestrates) is embedded in
`EStateM PyExc World`: the `World` carries the module globals
(`_current_mode`, `_last_apply_ts`, `_last_switch_ts`) together with counters
of spawned external processes, and `PyExc` models the exceptions that
`subprocess.run` can raise out of `run_cmd` (`TimeoutExpired`,
`FileNotFoundError`).  The outcomes of the external processes themselves
(supervisorctl, the kiosk script, the X probes) are inputs, collected in an
`Env` record; bounded real-time polling loops are given the list of per-tick
outcomes that fit into their time window, so a loop's fuel is exactly the
number of poll iterations the wall clock would have allowed.
-/

namespace ToolbarApi

/-- ASCII whitespace recognised by Python's `str.strip()` / `str.split()`. -/
def pyIsSpace (c : Char) : Bool :=
  c == ' ' || c == '\t' || c == '\n' || c == '\r' || c == '\x0b' || c == '\x0c'

/-- Strip `pyIsSpace` characters from both ends of a character list. -/
def pyStripList (l : List Char) : List Char :=
  ((l.dropWhile pyIsSpace).reverse.dropWhile pyIsSpace).reverse

/-- Python `str.strip()` with no arguments (whitespace on both ends). -/
def pyStrip (s : String) : String := String.mk (pyStripList s.toList)

/-- Python `str.lower()` on the ASCII strings this program handles
(character-wise lowercase). -/
def pyLower (s : String) : String := String.mk (s.toList.map Char.toLower)

/-- Accumulator loop behind `pySplit`. -/
def pySplitAux : List Char → List Char → List String
  | [], acc => if acc.isEmpty then [] else [String.mk acc.reverse]
  | c :: rest, acc =>
    if pyIsSpace c then
      if acc.isEmpty then pySplitAux rest []
      else String.mk acc.reverse :: pySplitAux rest []
    else
      pySplitAux rest (c :: acc)

/-- Python `str.split()` with no separator: split on whitespace runs,
dropping empty fields. -/
def pySplit (s : String) : List String := pySplitAux s.toList []

/-- Accumulator loop behind `pySplitlines`. -/
def pySplitlinesAux : List Char → List Char → List String
  | [], acc => if acc.isEmpty then [] else [String.mk acc.reverse]
  | '\r' :: '\n' :: rest, acc => String.mk acc.reverse :: pySplitlinesAux rest []
  | '\r' :: rest, acc => String.mk acc.reverse :: pySplitlinesAux rest []
  | '\n' :: rest, acc => String.mk acc.reverse :: pySplitlinesAux rest []
  | c :: rest, acc => pySplitlinesAux rest (c :: acc)

/-- Python `str.splitlines()`, restricted to the `\n`, `\r` and `\r\n`
line terminators that occur in `supervisorctl` output. -/
def pySplitlines (s : String) : List String := pySplitlinesAux s.toList []

/-- Static configuration read from the process environment at module load
(source lines 30-53).  Fields hold the raw environment values; the module
level constants are the stripped/defaulted derivations below. -/
structure Config where
  wmServiceEnv : String
  desktopServiceEnv : String
  kioskScript : String
  xReadyCmdEnv : String

/-- `WM_SERVICE = os.environ.get("WM_SERVICE", "xfce").strip() or "xfce"`
(source line 37): an empty stripped value falls back to `"xfce"`. -/
def WM_SERVICE (cfg : Config) : String :=
  if pyStrip cfg.wmServiceEnv = "" then "xfce" else pyStrip cfg.wmServiceEnv

/-- `DESKTOP_SERVICE = os.environ.get("DESKTOP_SERVICE", "none").strip()`
(source line 38). -/
def DESKTOP_SERVICE (cfg : Config) : String := pyStrip cfg.desktopServiceEnv

/-- `X_READY_CMD = os.environ.get("X_READY_CMD", "").strip()` (source line 53). -/
def X_READY_CMD (cfg : Config) : String := pyStrip cfg.xReadyCmdEnv

/-- `_desktop_service_enabled` (source lines 75-83): the companion desktop
service participates only when it is non-empty, not one of the disabling
sentinels, and distinct from the window-manager service. -/
def _desktop_service_enabled (cfg : Config) : Bool :=
  let ds := pyStrip (DESKTOP_SERVICE cfg)
  if ds = "" then false
  else if ["none", "null", "0", "false"].contains (pyLower ds) then false
  else if ds = WM_SERVICE cfg then false
  else true

/-- `services_start_order` (source lines 86-89). -/
def services_start_order (cfg : Config) : List String :=
  if _desktop_service_enabled cfg then [WM_SERVICE cfg, DESKTOP_SERVICE cfg]
  else [WM_SERVICE cfg]

/-- `services_stop_order` (source lines 92-95). -/
def services_stop_order (cfg : Config) : List String :=
  if _desktop_service_enabled cfg then [DESKTOP_SERVICE cfg, WM_SERVICE cfg]
  else [WM_SERVICE cfg]

/-- A supervisor status snapshot: Python dict from service name to raw state
string, as an insertion-ordered association list with unique keys. -/
abbrev StatusMap := List (String × String)

/-- Python dict assignment `m[k] = v`: overwrite in place if the key exists,
else append. -/
def dictInsert (m : StatusMap) (k v : String) : StatusMap :=
  if m.any (fun p => p.1 == k) then
    m.map (fun p => if p.1 == k then (k, v) else p)
  else
    m ++ [(k, v)]

/-- The parsing loop of `supervisor_status_map` (source lines 117-124):
for each output line, take the first two whitespace-separated fields as
name and state. -/
def parseStatusOutput (out : String) : StatusMap :=
  (pySplitlines out).foldl
    (fun m line =>
      match pySplit line with
      | p0 :: p1 :: _ => dictInsert m (pyStrip p0) (pyStrip p1)
      | _ => m)
    []

/-- `is_running` (source lines 127-130), status map passed explicitly
(every call site in the reconciliation core passes one). -/
def is_running (service_name : String) (status_map : StatusMap) : Bool :=
  status_map.lookup service_name == some "RUNNING"

/-- `stack_running` (source lines 133-144), status map passed explicitly.
An empty snapshot is fail-open: the stack is not claimed to be down when
`supervisorctl` itself produced nothing. -/
def stack_running (cfg : Config) (status_map : StatusMap) : Bool :=
  if status_map.isEmpty then true
  else if _desktop_service_enabled cfg then
    is_running (WM_SERVICE cfg) status_map && is_running (DESKTOP_SERVICE cfg) status_map
  else
    is_running (WM_SERVICE cfg) status_map

/-- Exceptions that `subprocess.run` can raise through `run_cmd`:
`subprocess.TimeoutExpired` when the bounded deadline elapses, and
`FileNotFoundError` when the executable is absent.  Neither is caught inside
`ensure_ready`; `wait_x_ready` catches only `FileNotFoundError`. -/
inductive PyExc where
  | timeoutExpired
  | fileNotFound
deriving Repr, DecidableEq

/-- Outcome of one external process invocation, supplied by the environment:
a normal completion with exit code, stdout and stderr, or one of the two
exceptional outcomes of `subprocess.run`. -/
inductive CmdOutcome where
  | ret (rc : Int) (out err : String)
  | timeout
  | notFound
deriving Repr, DecidableEq

/-- `True` when the invocation completed normally (no exception raised). -/
def CmdOutcome.isRet : CmdOutcome → Bool
  | .ret _ _ _ => true
  | _ => false

/-- The module-level mutable globals of `toolbar_api.py` (source lines 67-72):
`_current_mode`, `_last_apply_ts` and `_last_switch_ts`.  Timestamps are
abstract clock readings (the program only stores and reports them). -/
structure PyState where
  current_mode : String
  last_apply_ts : Nat
  last_switch_ts : Nat
deriving Repr, DecidableEq

/-- Program state threaded through the embedding: the mutable globals plus
counters of how many times each kind of external process was spawned
(a spawn is counted even if the process later times out). -/
structure World where
  st : PyState
  kioskInvocations : Nat
  stopInvocations : Nat
  startInvocations : Nat
deriving Repr, DecidableEq

/-- The embedding monad: state `World`, exceptions `PyExc`.  On an error the
state mutated so far is retained, exactly like Python globals when an
exception propagates. -/
abbrev M (α : Type) := EStateM PyExc World α

/-- One `ensure_ready` call's external environment: whether the non-blocking
lock acquisition succeeds, the outcome of every external process invocation
the call can make, and the wall-clock readings it can store.  Polling loops
receive the list of per-tick outcomes that fit into their bounded window. -/
structure Env where
  lockFree : Bool
  statusOut1 : CmdOutcome
  stopOut : Nat → CmdOutcome
  startOut : Nat → CmdOutcome
  waitPolls : List CmdOutcome
  xCustomPolls : List CmdOutcome
  xProbePolls : List (CmdOutcome × CmdOutcome)
  kioskScriptExists : Bool
  kioskOut : CmdOutcome
  statusOut2 : CmdOutcome
  nowSwitch : Nat
  nowApply : Nat

/-- `run_cmd` (source lines 98-109): returns `(returncode, stdout, stderr)`
on normal completion and raises on timeout or a missing executable. -/
def runCmd (o : CmdOutcome) : M (Int × String × String) :=
  match o with
  | .ret rc out err => pure (rc, out, err)
  | .timeout => throw PyExc.timeoutExpired
  | .notFound => throw PyExc.fileNotFound

/-- `supervisor_status_map` (source lines 112-124): empty map on a non-zero
exit, parsed map otherwise; a timeout raises. -/
def supervisor_status_map (o : CmdOutcome) : M StatusMap := do
  let (rc, out, _err) ← runCmd o
  if rc ≠ 0 then
    return []
  else
    return parseStatusOutput out

/-- `supervisor_stop` (source lines 147-148).  The counter bump models the
process spawn; the result of the control call is discarded. -/
def supervisor_stop (o : CmdOutcome) : M Unit := do
  modify fun w => { w with stopInvocations := w.stopInvocations + 1 }
  let _ ← runCmd o
  pure ()

/-- `supervisor_start` (source lines 151-152). -/
def supervisor_start (o : CmdOutcome) : M Unit := do
  modify fun w => { w with startInvocations := w.startInvocations + 1 }
  let _ ← runCmd o
  pure ()

/-- `wait_stack_ready` (source lines 155-162) as a fuelled polling loop:
one status snapshot per tick until the stack is running or the ticks that
fit into `WAIT_MAX_SEC` are exhausted. -/
def wait_stack_ready (cfg : Config) : List CmdOutcome → M Bool
  | [] => pure false
  | o :: polls => do
    let st ← supervisor_status_map o
    if stack_running cfg st then
      pure true
    else
      wait_stack_ready cfg polls

/-- The `for s in services_stop_order(): supervisor_stop(s)` loop, with the
i-th stop invocation drawing its outcome from `env.stopOut i`. -/
def runStopLoop (env : Env) : Nat → List String → M Unit
  | _, [] => pure ()
  | i, _s :: rest => do
    supervisor_stop (env.stopOut i)
    runStopLoop env (i + 1) rest

/-- The `for s in services_start_order(): supervisor_start(s)` loop. -/
def runStartLoop (env : Env) : Nat → List String → M Unit
  | _, [] => pure ()
  | i, _s :: rest => do
    supervisor_start (env.startOut i)
    runStartLoop env (i + 1) rest

/-- `desktop_stack` (source lines 165-183): stop, start, or stop-then-start
over the configured orders; start/restart afterwards wait for the stack. -/
def desktop_stack (cfg : Config) (env : Env) (action0 : String) : M Bool := do
  let action := pyStrip (pyLower action0)
  if action = "stop" then
    runStopLoop env 0 (services_stop_order cfg)
    pure true
  else if action = "start" then
    runStartLoop env 0 (services_start_order cfg)
    wait_stack_ready cfg env.waitPolls
  else
    runStopLoop env 0 (services_stop_order cfg)
    runStartLoop env 0 (services_start_order cfg)
    wait_stack_ready cfg env.waitPolls

/-- One default X probe attempt (source lines 205-210): only
`FileNotFoundError` is caught and turned into exit code 127; a timeout
still raises. -/
def runXProbe (o : CmdOutcome) : M Int :=
  match o with
  | .notFound => pure 127
  | _ => do
    let (rc, _out, _err) ← runCmd o
    pure rc

/-- The custom-command branch of `wait_x_ready` (source lines 188-195):
poll `X_READY_CMD` until it exits zero or the ticks run out. -/
def waitXCustomLoop : List CmdOutcome → M Bool
  | [] => pure false
  | o :: polls => do
    let (rc, _out, _err) ← runCmd o
    if rc = 0 then
      pure true
    else
      waitXCustomLoop polls

/-- The default-probe branch of `wait_x_ready` (source lines 197-214):
each tick tries the probes `["xset", "q"]` then `["xdpyinfo"]` in order. -/
def waitXProbeLoop : List (CmdOutcome × CmdOutcome) → M Bool
  | [] => pure false
  | pr :: polls => do
    let rc1 ← runXProbe pr.1
    if rc1 = 0 then
      pure true
    else do
      let rc2 ← runXProbe pr.2
      if rc2 = 0 then
        pure true
      else
        waitXProbeLoop polls

/-- `wait_x_ready` (source lines 186-214). -/
def wait_x_ready (cfg : Config) (env : Env) : M Bool :=
  if X_READY_CMD cfg ≠ "" then
    waitXCustomLoop env.xCustomPolls
  else
    waitXProbeLoop env.xProbePolls

/-- The diagnostic message of `set_kiosk_mode` (source lines 224-225):
stripped stdout if non-empty, else stripped stderr, else `"ok"`. -/
def kioskMsg (out err : String) : String :=
  let msg := if pyStrip out ≠ "" then pyStrip out else pyStrip err
  if msg ≠ "" then msg else "ok"

/-- `set_kiosk_mode` (source lines 217-225): fail fast if the script path
does not exist (no process spawned); otherwise spawn it and report success
iff the exit status is zero. -/
def set_kiosk_mode (cfg : Config) (env : Env) (_mode : String) : M (Bool × String) :=
  if !env.kioskScriptExists then
    pure (false, "missing_script:" ++ cfg.kioskScript)
  else do
    modify fun w => { w with kioskInvocations := w.kioskInvocations + 1 }
    let (rc, out, err) ← runCmd env.kioskOut
    pure (rc == 0, kioskMsg out err)

/-- The status record built by `build_status_payload` (source lines 235-244). -/
structure BasePayload where
  services : StatusMap
  running : Bool
  last_switch_ts : Nat
  kiosk_script : String
  wm_service : String
  desktop_service : String
  current_mode : String
  last_apply_ts : Nat
deriving Repr, DecidableEq

/-- The pure assembly of `build_status_payload` (source lines 228-244) from a
status snapshot and the current globals. -/
def basePayloadOf (cfg : Config) (st : StatusMap) (w : World) : BasePayload :=
  let svc0 := dictInsert [] (WM_SERVICE cfg) ((st.lookup (WM_SERVICE cfg)).getD "UNKNOWN")
  let svc := if _desktop_service_enabled cfg then
      dictInsert svc0 (DESKTOP_SERVICE cfg) ((st.lookup (DESKTOP_SERVICE cfg)).getD "UNKNOWN")
    else svc0
  { services := svc
    running := stack_running cfg st
    last_switch_ts := w.st.last_switch_ts
    kiosk_script := cfg.kioskScript
    wm_service := WM_SERVICE cfg
    desktop_service := if _desktop_service_enabled cfg then DESKTOP_SERVICE cfg else "none"
    current_mode := w.st.current_mode
    last_apply_ts := w.st.last_apply_ts }

/-- `build_status_payload` (source lines 228-244): take a fresh status
snapshot and read the globals. -/
def build_status_payload (cfg : Config) (o : CmdOutcome) : M BasePayload := do
  let st ← supervisor_status_map o
  let w ← get
  pure (basePayloadOf cfg st w)

/-- The JSON object `ensure_ready` returns: the status record plus the
fields added by `payload.update`.  Fields absent on the busy path are
`none`. -/
structure Payload where
  base : BasePayload
  ok : Bool
  busy : Bool
  changed : Bool
  requested_mode : Option String
  applied : Option Bool
  mode_ok : Option Bool
  mode_msg : Option String
  message : String
deriving Repr, DecidableEq

/-- The busy result of `ensure_ready` (source lines 250-258). -/
def busyPayload (base : BasePayload) : Payload :=
  { base := base, ok := false, busy := true, changed := false,
    requested_mode := none, applied := none, mode_ok := none, mode_msg := none,
    message := "switch_in_progress" }

/-- `desired_mode = "on" if want_kiosk else "off"` (source line 261). -/
def desiredStr (want_kiosk : Bool) : String := if want_kiosk then "on" else "off"

/-- Source lines 266-275: when forced or not running, restart/start the
stack, record the switch timestamp, and (best effort) wait for X; the
section's value is the `restarted` flag. -/
def restart_section (cfg : Config) (env : Env) (force running : Bool) : M Bool :=
  if force || !running then do
    let ok_stack ← desktop_stack cfg env (if force then "restart" else "start")
    modify fun w => { w with st := { w.st with last_switch_ts := env.nowSwitch } }
    if ok_stack then do
      let _ ← wait_x_ready cfg env
      pure true
    else
      pure true
  else
    pure false

/-- Source lines 277-289: compute `apply_needed`, run the kiosk script when
needed, and commit `_current_mode` / `_last_apply_ts` only on success.  The
post-apply settle sleep has no observable effect in the embedding.  Returns
`(apply_needed, ok_mode, msg_mode)`. -/
def apply_section (cfg : Config) (env : Env) (desired_mode : String)
    (force restarted : Bool) : M (Bool × Bool × String) := do
  let w ← get
  let apply_needed := force || restarted || !(w.st.current_mode == desired_mode)
  if apply_needed then do
    let (ok_mode, msg_mode) ← set_kiosk_mode cfg env desired_mode
    if ok_mode then
      modify fun w =>
        { w with st := { w.st with current_mode := desired_mode, last_apply_ts := env.nowApply } }
    pure (apply_needed, ok_mode, msg_mode)
  else
    pure (apply_needed, true, "skipped")

/-- The pure tail of `ensure_ready` (source lines 292-311): the success
predicate, the response payload, and the HTTP status hint, from the fresh
status record, the globals, and `(apply_needed, ok_mode, msg_mode)`. -/
def finishPure (desired_mode : String) (restarted : Bool) (r : Bool × Bool × String)
    (base : BasePayload) (w : World) : Nat × Payload :=
  let running_now := base.running
  let ok_all := running_now && r.2.1 && (w.st.current_mode == desired_mode)
  ((if ok_all then 200 else 202),
   { base := base, ok := ok_all, busy := false, changed := restarted,
     requested_mode := some desired_mode, applied := some r.1,
     mode_ok := some r.2.1, mode_msg := some r.2.2,
     message := if ok_all then "ready" else if !running_now then "starting" else "applying" })

/-- Source lines 291-311: re-snapshot the stack and assemble the result. -/
def finish_section (cfg : Config) (env : Env) (desired_mode : String)
    (restarted : Bool) (r : Bool × Bool × String) : M (Nat × Payload) := do
  let base ← build_status_payload cfg env.statusOut2
  let w ← get
  pure (finishPure desired_mode restarted r base w)

/-- `ensure_ready` (source lines 247-314).  The non-blocking lock
acquisition outcome is `env.lockFree`; the `finally` release has no
observable effect on `World`.  An uncaught `PyExc` propagates to the HTTP
boundary as an `EStateM.Result.error`. -/
def ensure_ready (cfg : Config) (env : Env) (force want_kiosk : Bool) : M (Nat × Payload) :=
  if !env.lockFree then do
    let base ← build_status_payload cfg env.statusOut1
    pure (202, busyPayload base)
  else do
    let desired_mode := desiredStr want_kiosk
    let st ← supervisor_status_map env.statusOut1
    let running := stack_running cfg st
    let restarted ← restart_section cfg env force running
    let r ← apply_section cfg env desired_mode force restarted
    finish_section cfg env desired_mode restarted r

/-- Shorthand for running one `ensure_ready` call from a given world. -/
def runEnsure (cfg : Config) (env : Env) (force want_kiosk : Bool) (w : World) :
    EStateM.Result PyExc World (Nat × Payload) :=
  (ensure_ready cfg env force want_kiosk).run w

/-- The world in which a run ended, whether it returned or raised. -/
def resWorld {α : Type} : EStateM.Result PyExc World α → World
  | .ok _ w => w
  | .error _ w => w

/-- `True` when the run returned normally. -/
def resIsOk {α : Type} : EStateM.Result PyExc World α → Bool
  | .ok _ _ => true
  | .error _ _ => false

/-- Check a boolean property of the status-hint/payload/final-world of a
normally returning run; exceptional runs pass vacuously. -/
def resultCheck (f : Nat → Payload → World → Bool) :
    EStateM.Result PyExc World (Nat × Payload) → Bool
  | .ok (code, p) w' => f code p w'
  | .error _ _ => true

/-- The `mode_ok` field of a payload as a plain boolean (`false` when the
field is absent, as on the busy path). -/
def modeOkFlag (p : Payload) : Bool :=
  match p.mode_ok with
  | some b => b
  | none => false

/-- The `applied` field of a payload as a plain boolean (`false` when the
field is absent, as on the busy path). -/
def appliedFlag (p : Payload) : Bool :=
  match p.applied with
  | some b => b
  | none => false

/-- The value `supervisor_status_map` would produce from one outcome,
as a pure `Except`. -/
def statusOf : CmdOutcome → Except PyExc StatusMap
  | .ret rc out _err => .ok (if rc ≠ 0 then [] else parseStatusOutput out)
  | .timeout => .error PyExc.timeoutExpired
  | .notFound => .error PyExc.fileNotFound

/-- Whether the first status snapshot of an `ensure_ready` call reports the
stack as running (false when that snapshot raises). -/
def firstSnapshotRunning (cfg : Config) (env : Env) : Bool :=
  match statusOf env.statusOut1 with
  | .ok m => stack_running cfg m
  | .error _ => false

/-! ### Elementary run lemmas for the embedding monad -/

@[simp] theorem run_bindM {α β : Type} (x : M α) (f : α → M β) (w : World) :
    (x >>= f).run w = match x.run w with
      | .ok a w' => (f a).run w'
      | .error e w' => .error e w' := by
  cases h : x.run w with
  | ok a w' =>
    show EStateM.bind x f w = _
    unfold EStateM.bind
    rw [show x w = EStateM.Result.ok a w' from h]
    exact rfl
  | error e w' =>
    show EStateM.bind x f w = _
    unfold EStateM.bind
    rw [show x w = EStateM.Result.error e w' from h]

@[simp] theorem run_pureM {α : Type} (a : α) (w : World) :
    (pure a : M α).run w = .ok a w := rfl

@[simp] theorem run_getM (w : World) : (get : M World).run w = .ok w w := rfl

@[simp] theorem run_modifyM (f : World → World) (w : World) :
    (modify f : M Unit).run w = .ok () (f w) := rfl

@[simp] theorem run_throwM {α : Type} (e : PyExc) (w : World) :
    (throw e : M α).run w = .error e w := rfl

@[simp] theorem run_mapM {α β : Type} (f : α → β) (x : M α) (w : World) :
    (f <$> x).run w = match x.run w with
      | .ok a w' => .ok (f a) w'
      | .error e w' => .error e w' := by
  cases h : x.run w with
  | ok a w' =>
    show EStateM.map f x w = _
    unfold EStateM.map
    rw [show x w = EStateM.Result.ok a w' from h]
  | error e w' =>
    show EStateM.map f x w = _
    unfold EStateM.map
    rw [show x w = EStateM.Result.error e w' from h]

@[simp] theorem run_seqRightM {α β : Type} (x : M α) (y : M β) (w : World) :
    (x *> y).run w = match x.run w with
      | .ok _ w' => y.run w'
      | .error e w' => .error e w' := by
  cases h : x.run w with
  | ok a w' =>
    show EStateM.seqRight x (fun _ => y) w = _
    unfold EStateM.seqRight
    rw [show x w = EStateM.Result.ok a w' from h]
    exact rfl
  | error e w' =>
    show EStateM.seqRight x (fun _ => y) w = _
    unfold EStateM.seqRight
    rw [show x w = EStateM.Result.error e w' from h]

@[simp] theorem resWorld_ok {α : Type} (a : α) (w : World) :
    resWorld (.ok a w) = w := rfl

@[simp] theorem resWorld_error {α : Type} (e : PyExc) (w : World) :
    resWorld (.error e w : EStateM.Result PyExc World α) = w := rfl

@[simp] theorem run_runCmd (o : CmdOutcome) (w : World) :
    (runCmd o).run w = match o with
      | .ret rc out err => .ok (rc, out, err) w
      | .timeout => .error PyExc.timeoutExpired w
      | .notFound => .error PyExc.fileNotFound w := by
  cases o <;> rfl

theorem supervisor_status_map_run (o : CmdOutcome) (w : World) :
    (supervisor_status_map o).run w = match statusOf o with
      | .ok m => .ok m w
      | .error e => .error e w := by
  cases o with
  | ret rc out err =>
    by_cases h : rc = 0
    · simp [supervisor_status_map, statusOf, h]
    · simp [supervisor_status_map, statusOf, h]
  | timeout => rfl
  | notFound => rfl

/-! ### World-preservation machinery -/

/-- The view `g` of the world is unchanged by running `x`, whether `x`
returns or raises. -/
def WPres {α γ : Type} (g : World → γ) (x : M α) : Prop :=
  ∀ w, g (resWorld (x.run w)) = g w

theorem WPres.bindW {α β γ : Type} {g : World → γ} {x : M α} {f : α → M β}
    (hx : WPres g x) (hf : ∀ a, WPres g (f a)) : WPres g (x >>= f) := by
  intro w
  rw [run_bindM]
  cases h : x.run w with
  | ok a w' =>
    have h1 := hx w
    rw [h] at h1
    simp only [resWorld_ok] at h1
    exact (hf a w').trans h1
  | error e w' =>
    have h1 := hx w
    rw [h] at h1
    simpa using h1

theorem WPres.pureW {α γ : Type} (g : World → γ) (a : α) : WPres g (pure a : M α) :=
  fun _ => rfl

theorem WPres.iteW {α γ : Type} {g : World → γ} (c : Prop) [Decidable c] {x y : M α}
    (hx : WPres g x) (hy : WPres g y) : WPres g (if c then x else y) := by
  by_cases h : c
  · simpa [h] using hx
  · simpa [h] using hy

theorem wpres_statusMap {γ : Type} (g : World → γ) (o : CmdOutcome) :
    WPres g (supervisor_status_map o) := by
  intro w
  rw [supervisor_status_map_run]
  cases statusOf o <;> rfl

theorem wpres_waitStack {γ : Type} (g : World → γ) (cfg : Config) (polls : List CmdOutcome) :
    WPres g (wait_stack_ready cfg polls) := by
  induction polls with
  | nil => exact fun _ => rfl
  | cons o polls ih =>
    rw [wait_stack_ready]
    exact WPres.bindW (wpres_statusMap g o) fun st => by
      by_cases h : stack_running cfg st <;> simp [h]
      · exact fun w => rfl
      · exact ih

theorem wpres_runXProbe {γ : Type} (g : World → γ) (o : CmdOutcome) :
    WPres g (runXProbe o) := by
  intro w
  cases o <;> rfl

theorem wpres_waitXCustom {γ : Type} (g : World → γ) (polls : List CmdOutcome) :
    WPres g (waitXCustomLoop polls) := by
  induction polls with
  | nil => exact fun _ => rfl
  | cons o polls ih =>
    rw [waitXCustomLoop]
    refine WPres.bindW (fun w => by cases o <;> rfl) fun rcp => ?_
    by_cases h : rcp.1 = 0 <;> simp [h]
    · exact fun w => rfl
    · exact ih

theorem wpres_waitXProbe {γ : Type} (g : World → γ) (polls : List (CmdOutcome × CmdOutcome)) :
    WPres g (waitXProbeLoop polls) := by
  induction polls with
  | nil => exact fun _ => rfl
  | cons pr polls ih =>
    rw [waitXProbeLoop]
    refine WPres.bindW (wpres_runXProbe g pr.1) fun rc1 => ?_
    by_cases h1 : rc1 = 0 <;> simp [h1]
    · exact fun w => rfl
    · refine WPres.bindW (wpres_runXProbe g pr.2) fun rc2 => ?_
      by_cases h2 : rc2 = 0 <;> simp [h2]
      · exact fun w => rfl
      · exact ih

theorem wpres_waitX {γ : Type} (g : World → γ) (cfg : Config) (env : Env) :
    WPres g (wait_x_ready cfg env) := by
  unfold wait_x_ready
  by_cases h : X_READY_CMD cfg ≠ "" <;> simp [h]
  · exact wpres_waitXCustom g env.xCustomPolls
  · exact wpres_waitXProbe g env.xProbePolls

theorem wpres_buildPayload {γ : Type} (g : World → γ) (cfg : Config) (o : CmdOutcome) :
    WPres g (build_status_payload cfg o) := by
  unfold build_status_payload
  exact WPres.bindW (wpres_statusMap g o) fun st =>
    WPres.bindW (fun w => rfl) fun w1 => WPres.pureW g _

/-- The view of the world that the restart section must preserve:
mode state and the kiosk-invocation counter. -/
def modeView (w : World) : String × Nat × Nat :=
  (w.st.current_mode, w.st.last_apply_ts, w.kioskInvocations)

theorem wpres_supervisor_stop (o : CmdOutcome) : WPres modeView (supervisor_stop o) := by
  intro w
  cases o <;> rfl

theorem wpres_supervisor_start (o : CmdOutcome) : WPres modeView (supervisor_start o) := by
  intro w
  cases o <;> rfl

theorem wpres_runStopLoop (env : Env) (i : Nat) (names : List String) :
    WPres modeView (runStopLoop env i names) := by
  induction names generalizing i with
  | nil => exact fun _ => rfl
  | cons s names ih =>
    rw [runStopLoop]
    exact WPres.bindW (wpres_supervisor_stop _) fun _ => ih (i + 1)

theorem wpres_runStartLoop (env : Env) (i : Nat) (names : List String) :
    WPres modeView (runStartLoop env i names) := by
  induction names generalizing i with
  | nil => exact fun _ => rfl
  | cons s names ih =>
    rw [runStartLoop]
    exact WPres.bindW (wpres_supervisor_start _) fun _ => ih (i + 1)

theorem wpres_desktop_stack (cfg : Config) (env : Env) (action0 : String) :
    WPres modeView (desktop_stack cfg env action0) := by
  unfold desktop_stack
  by_cases h1 : pyStrip (pyLower action0) = "stop" <;> simp [h1]
  · exact WPres.bindW (wpres_runStopLoop env 0 _) fun _ => WPres.pureW _ _
  · by_cases h2 : pyStrip (pyLower action0) = "start" <;> simp [h2]
    · exact WPres.bindW (wpres_runStartLoop env 0 _) fun _ => wpres_waitStack _ cfg _
    · exact WPres.bindW (wpres_runStopLoop env 0 _) fun _ =>
        WPres.bindW (wpres_runStartLoop env 0 _) fun _ => wpres_waitStack _ cfg _

theorem wpres_restart_section (cfg : Config) (env : Env) (force running : Bool) :
    WPres modeView (restart_section cfg env force running) := by
  unfold restart_section
  by_cases h : (force || !running) = true <;> simp [h]
  · refine WPres.bindW (wpres_desktop_stack cfg env _) fun ok_stack => ?_
    refine WPres.bindW (fun w => rfl) fun _ => ?_
    by_cases h2 : ok_stack = true <;> simp [h2]
    · exact WPres.bindW (wpres_waitX modeView cfg env) fun _ => WPres.pureW _ _
    · exact WPres.pureW _ _
  · exact WPres.pureW _ _

/-! ### Characterization equations for the sections of `ensure_ready` -/

theorem build_status_payload_run (cfg : Config) (o : CmdOutcome) (w : World) :
    (build_status_payload cfg o).run w = match statusOf o with
      | .ok m => .ok (basePayloadOf cfg m w) w
      | .error e => .error e w := by
  unfold build_status_payload
  rw [run_bindM, supervisor_status_map_run]
  cases statusOf o
  · exact rfl
  · exact rfl

theorem set_kiosk_mode_run (cfg : Config) (env : Env) (mode : String) (w : World) :
    (set_kiosk_mode cfg env mode).run w =
      if env.kioskScriptExists then
        match env.kioskOut with
        | .ret rc out err =>
          .ok (rc == 0, kioskMsg out err) { w with kioskInvocations := w.kioskInvocations + 1 }
        | .timeout =>
          .error PyExc.timeoutExpired { w with kioskInvocations := w.kioskInvocations + 1 }
        | .notFound =>
          .error PyExc.fileNotFound { w with kioskInvocations := w.kioskInvocations + 1 }
      else
        .ok (false, "missing_script:" ++ cfg.kioskScript) w := by
  by_cases h : env.kioskScriptExists = true
  · cases ho : env.kioskOut <;> simp [set_kiosk_mode, h, ho]
  · simp only [Bool.not_eq_true] at h
    simp [set_kiosk_mode, h]

theorem apply_section_run (cfg : Config) (env : Env) (d : String) (force restarted : Bool)
    (w : World) :
    (apply_section cfg env d force restarted).run w =
      if force || restarted || !(w.st.current_mode == d) then
        if env.kioskScriptExists then
          match env.kioskOut with
          | .ret rc out err =>
            if rc == 0 then
              .ok (true, true, kioskMsg out err)
                { w with st := { w.st with current_mode := d, last_apply_ts := env.nowApply },
                         kioskInvocations := w.kioskInvocations + 1 }
            else
              .ok (true, false, kioskMsg out err)
                { w with kioskInvocations := w.kioskInvocations + 1 }
          | .timeout =>
            .error PyExc.timeoutExpired { w with kioskInvocations := w.kioskInvocations + 1 }
          | .notFound =>
            .error PyExc.fileNotFound { w with kioskInvocations := w.kioskInvocations + 1 }
        else
          .ok (true, false, "missing_script:" ++ cfg.kioskScript) w
      else
        .ok (false, true, "skipped") w := by
  by_cases hn : (force || restarted || !(w.st.current_mode == d)) = true
  · have hP : (force = true ∨ restarted = true) ∨ ¬w.st.current_mode = d := by
      simpa using hn
    by_cases hk : env.kioskScriptExists = true
    · cases ho : env.kioskOut with
      | ret rc out err =>
        by_cases hrc : rc = 0
        · simp [apply_section, set_kiosk_mode, hn, hk, ho, hrc, if_pos hP]
        · have hb : (rc == 0) = false := by simp [hrc]
          simp [apply_section, set_kiosk_mode, hn, hk, ho, hrc, hb, if_pos hP]
      | timeout => simp [apply_section, set_kiosk_mode, hn, hk, ho, if_pos hP]
      | notFound => simp [apply_section, set_kiosk_mode, hn, hk, ho, if_pos hP]
    · have hkf : env.kioskScriptExists = false := by simpa using hk
      simp [apply_section, set_kiosk_mode, hn, hkf, if_pos hP]
  · have hnf : (force || restarted || !(w.st.current_mode == d)) = false := by
      simpa using hn
    have hP : ¬((force = true ∨ restarted = true) ∨ ¬w.st.current_mode = d) := by
      simpa using hn
    simp [apply_section, hnf, if_neg hP]

theorem finish_section_run (cfg : Config) (env : Env) (d : String) (restarted : Bool)
    (r : Bool × Bool × String) (w : World) :
    (finish_section cfg env d restarted r).run w =
      match statusOf env.statusOut2 with
      | .ok m => .ok (finishPure d restarted r (basePayloadOf cfg m w) w) w
      | .error e => .error e w := by
  unfold finish_section
  rw [run_bindM, build_status_payload_run]
  cases statusOf env.statusOut2
  · exact rfl
  · exact rfl

theorem runEnsure_busy (cfg : Config) (env : Env) (force want : Bool) (w : World)
    (h : env.lockFree = false) :
    runEnsure cfg env force want w =
      match statusOf env.statusOut1 with
      | .ok m => .ok (202, busyPayload (basePayloadOf cfg m w)) w
      | .error e => .error e w := by
  unfold runEnsure ensure_ready
  rw [h]
  rw [if_pos (show (!false) = true from rfl)]
  rw [run_bindM, build_status_payload_run]
  cases statusOf env.statusOut1
  · exact rfl
  · exact rfl

theorem runEnsure_main (cfg : Config) (env : Env) (force want : Bool) (w : World)
    (h : env.lockFree = true) :
    runEnsure cfg env force want w =
      ((supervisor_status_map env.statusOut1) >>= fun st =>
        (restart_section cfg env force (stack_running cfg st)) >>= fun restarted =>
        (apply_section cfg env (desiredStr want) force restarted) >>= fun r =>
        finish_section cfg env (desiredStr want) restarted r).run w := by
  unfold runEnsure ensure_ready
  rw [h]
  exact rfl

/-! ### Idempotence of `pyStrip` (stripping a stripped string is a no-op) -/

theorem pyStripList_eq (l : List Char) :
    pyStripList l = List.rdropWhile pyIsSpace (l.dropWhile pyIsSpace) := rfl

theorem pyStripList_idem (l : List Char) : pyStripList (pyStripList l) = pyStripList l := by
  rw [pyStripList_eq, pyStripList_eq]
  have hAself : (l.dropWhile pyIsSpace).dropWhile pyIsSpace = l.dropWhile pyIsSpace :=
    List.dropWhile_idempotent _ _
  have hBpre : List.rdropWhile pyIsSpace (l.dropWhile pyIsSpace) <+: l.dropWhile pyIsSpace :=
    List.rdropWhile_prefix _ _
  have hBself : (List.rdropWhile pyIsSpace (l.dropWhile pyIsSpace)).dropWhile pyIsSpace
      = List.rdropWhile pyIsSpace (l.dropWhile pyIsSpace) := by
    cases hBc : List.rdropWhile pyIsSpace (l.dropWhile pyIsSpace) with
    | nil => simp
    | cons hd tl =>
      rw [hBc] at hBpre
      obtain ⟨t, ht⟩ := hBpre
      have hAeq : l.dropWhile pyIsSpace = hd :: (tl ++ t) := by
        rw [← ht, List.cons_append]
      have h0 := List.head?_dropWhile_not pyIsSpace l
      rw [hAeq] at h0
      simp only [List.head?_cons] at h0
      rw [List.dropWhile_cons, if_neg (by simp [h0])]
  rw [hBself]
  exact List.rdropWhile_idempotent _ _

theorem pyStrip_idem (s : String) : pyStrip (pyStrip s) = pyStrip s := by
  unfold pyStrip
  rw [show (String.mk (pyStripList s.toList)).toList = pyStripList s.toList from rfl]
  rw [pyStripList_idem]

/-- `_desktop_service_enabled` with the inner re-strip removed: the
module-level `DESKTOP_SERVICE` is already stripped, so stripping it again
is a no-op. -/
theorem desktop_service_enabled_eq (cfg : Config) :
    _desktop_service_enabled cfg =
      if DESKTOP_SERVICE cfg = "" then false
      else if ["none", "null", "0", "false"].contains (pyLower (DESKTOP_SERVICE cfg)) then false
      else if DESKTOP_SERVICE cfg = WM_SERVICE cfg then false
      else true := by
  simp only [_desktop_service_enabled]
  rw [show pyStrip (DESKTOP_SERVICE cfg) = DESKTOP_SERVICE cfg
    from pyStrip_idem cfg.desktopServiceEnv]

/-! ### Claims C7 and C8 -/

/-- C7: for every status snapshot, `stack_running` is true on the empty
snapshot (fail-open), and otherwise true exactly when every required
service of the start order is mapped to the literal state `"RUNNING"`. -/
theorem C7_stack_running_fail_open (cfg : Config) (m : StatusMap) :
    stack_running cfg m =
      (m.isEmpty || (services_start_order cfg).all fun s => m.lookup s == some "RUNNING") := by
  by_cases hm : m.isEmpty = true
  · simp [stack_running, hm]
  · have hm' : m.isEmpty = false := by simpa using hm
    by_cases he : _desktop_service_enabled cfg = true
    · simp [stack_running, services_start_order, is_running, hm', he, Bool.and_true]
    · have he' : _desktop_service_enabled cfg = false := by simpa using he
      simp [stack_running, services_start_order, is_running, hm', he']

/-- C8: the stop order is always the exact reverse of the start order, and
whenever the companion desktop service is disabled (empty, a disabling
sentinel) or equal to the window-manager service, both orders are the
one-element list holding only the window-manager service. -/
theorem C8_service_orders (cfg : Config) :
    services_stop_order cfg = (services_start_order cfg).reverse ∧
    ((DESKTOP_SERVICE cfg = "" ∨
        (["none", "null", "0", "false"].contains (pyLower (DESKTOP_SERVICE cfg))) = true ∨
        DESKTOP_SERVICE cfg = WM_SERVICE cfg) →
      services_start_order cfg = [WM_SERVICE cfg] ∧
      (services_start_order cfg).length = 1 ∧
      services_stop_order cfg = services_start_order cfg) := by
  constructor
  · by_cases he : _desktop_service_enabled cfg = true <;>
      simp [services_start_order, services_stop_order, he]
  · intro hdis
    have he : _desktop_service_enabled cfg = false := by
      rw [desktop_service_enabled_eq]
      by_cases h0 : DESKTOP_SERVICE cfg = ""
      · simp [h0]
      · rcases hdis with h | h | h
        · exact absurd h h0
        · have h' : pyLower (DESKTOP_SERVICE cfg) = "none" ∨
              pyLower (DESKTOP_SERVICE cfg) = "null" ∨
              pyLower (DESKTOP_SERVICE cfg) = "0" ∨
              pyLower (DESKTOP_SERVICE cfg) = "false" := by simpa using h
          rcases h' with h' | h' | h' | h' <;> simp [h0, h']
        · by_cases h1 :
              (["none", "null", "0", "false"].contains (pyLower (DESKTOP_SERVICE cfg))) = true
          · have h1' : pyLower (DESKTOP_SERVICE cfg) = "none" ∨
                pyLower (DESKTOP_SERVICE cfg) = "null" ∨
                pyLower (DESKTOP_SERVICE cfg) = "0" ∨
                pyLower (DESKTOP_SERVICE cfg) = "false" := by simpa using h1
            rcases h1' with h' | h' | h' | h' <;> simp [h0, h']
          · have h1' : ¬(pyLower (DESKTOP_SERVICE cfg) = "none" ∨
                pyLower (DESKTOP_SERVICE cfg) = "null" ∨
                pyLower (DESKTOP_SERVICE cfg) = "0" ∨
                pyLower (DESKTOP_SERVICE cfg) = "false") := by simpa using h1
            push_neg at h1'
            simp [h0, h1'.1, h1'.2.1, h1'.2.2.1, h1'.2.2.2, h]
    simp [services_start_order, services_stop_order, he]

/-! ### Concrete fixtures used by the witnesses -/

/-- A default configuration: one `xfce` service, companion disabled. -/
def cfgW : Config :=
  { wmServiceEnv := "xfce", desktopServiceEnv := "none",
    kioskScript := "/data/conf/scripts/kiosk_mode.sh", xReadyCmdEnv := "" }

/-- The initial world: mode unknown, no timestamps, no spawned processes. -/
def wInit : World :=
  { st := { current_mode := "unknown", last_apply_ts := 0, last_switch_ts := 0 },
    kioskInvocations := 0, stopInvocations := 0, startInvocations := 0 }

/-- A world in which the kiosk mode was already applied as "on". -/
def wOn : World :=
  { st := { current_mode := "on", last_apply_ts := 3, last_switch_ts := 2 },
    kioskInvocations := 1, stopInvocations := 0, startInvocations := 0 }

/-- A benign environment: lock free, supervisor reports `xfce RUNNING`,
kiosk script present and succeeding. -/
def envW : Env :=
  { lockFree := true
    statusOut1 := .ret 0 "xfce RUNNING pid 21, uptime 0:00:01" ""
    stopOut := fun _ => .ret 0 "" ""
    startOut := fun _ => .ret 0 "" ""
    waitPolls := [.ret 0 "xfce RUNNING pid 21, uptime 0:00:01" ""]
    xCustomPolls := []
    xProbePolls := [(.ret 0 "" "", .ret 0 "" "")]
    kioskScriptExists := true
    kioskOut := .ret 0 "applied" ""
    statusOut2 := .ret 0 "xfce RUNNING pid 21, uptime 0:00:02" ""
    nowSwitch := 5
    nowApply := 7 }

/-- Witness for C8 at a concrete disabled-companion configuration. -/
theorem C8_witness :
    (DESKTOP_SERVICE cfgW = "" ∨
      (["none", "null", "0", "false"].contains (pyLower (DESKTOP_SERVICE cfgW))) = true ∨
      DESKTOP_SERVICE cfgW = WM_SERVICE cfgW) ∧
    (services_start_order cfgW = [WM_SERVICE cfgW] ∧
      (services_start_order cfgW).length = 1 ∧
      services_stop_order cfgW = services_start_order cfgW) :=
  ⟨Or.inr (Or.inl (by decide)),
   (C8_service_orders cfgW).2 (Or.inr (Or.inl (by decide)))⟩

/-! ### Claim C1 -/

/-- C1: `ensure_ready` computes `apply_needed = force || restarted ||
(current_mode != desired_mode)`; hence a non-forced call on a state where
the first snapshot already reports the stack running and `_current_mode`
already equals the desired mode performs no restart and no mode apply: the
final world equals the initial world (zero kiosk-script invocations), and a
normal return reports `applied = false`.  A second identical non-forced
call after a successful one is exactly such a call. -/
theorem C1_flicker_suppression (cfg : Config) (env : Env) (w : World) (want : Bool)
    (h1 : env.lockFree = true)
    (h2 : firstSnapshotRunning cfg env = true)
    (h3 : w.st.current_mode = desiredStr want) :
    resWorld (runEnsure cfg env false want w) = w ∧
    resultCheck (fun _code p _w' => p.applied == some false)
      (runEnsure cfg env false want w) = true := by
  rw [runEnsure_main cfg env false want w h1]
  rw [run_bindM, supervisor_status_map_run]
  cases hs : statusOf env.statusOut1 with
  | error e => simp [firstSnapshotRunning, hs] at h2
  | ok m =>
    have hrun : stack_running cfg m = true := by
      simpa [firstSnapshotRunning, hs] using h2
    simp only [run_bindM]
    rw [show (restart_section cfg env false (stack_running cfg m)).run w = .ok false w from by
      unfold restart_section
      rw [hrun]
      exact rfl]
    have hbe : (w.st.current_mode == desiredStr want) = true := by simp [h3]
    simp only [apply_section_run, hbe, Bool.not_true, Bool.or_self, Bool.or_false, Bool.false_or,
      if_neg (by simp : ¬(false : Bool) = true)]
    rw [finish_section_run]
    cases statusOf env.statusOut2 with
    | ok m2 => exact ⟨rfl, by simp [resultCheck, finishPure]⟩
    | error e => exact ⟨rfl, rfl⟩

/-- Witness for C1: a second non-forced kiosk call after a successful one
touches nothing. -/
theorem C1_witness :
    envW.lockFree = true ∧ firstSnapshotRunning cfgW envW = true ∧
    wOn.st.current_mode = desiredStr true ∧
    (resWorld (runEnsure cfgW envW false true wOn) = wOn ∧
      resultCheck (fun _code p _w' => p.applied == some false)
        (runEnsure cfgW envW false true wOn) = true) :=
  ⟨rfl, by decide, rfl, C1_flicker_suppression cfgW envW wOn true rfl (by decide) rfl⟩

/-! ### Claim C3 -/

/-- C3: a call that finds the switch lock held returns at once with the
busy payload (`ok = false`, `busy = true`, `changed = false`,
`message = "switch_in_progress"`, status hint 202) and mutates nothing:
the final world — mode state, timestamps and all spawn counters — is
exactly the initial world, so no start/stop or mode-toggle side effect
occurs. -/
theorem C3_busy_no_mutation (cfg : Config) (env : Env) (force want : Bool) (w : World)
    (h : env.lockFree = false) :
    resWorld (runEnsure cfg env force want w) = w ∧
    resultCheck (fun code p _w' =>
        (code == 202) && (p.busy == true) && (p.changed == false) && (p.ok == false) &&
        (p.applied == none) && (p.mode_ok == none) && (p.message == "switch_in_progress"))
      (runEnsure cfg env force want w) = true := by
  rw [runEnsure_busy cfg env force want w h]
  cases statusOf env.statusOut1 with
  | ok m => exact ⟨rfl, by simp [resultCheck, busyPayload]⟩
  | error e => exact ⟨rfl, rfl⟩

/-- Witness for C3 at a concrete held-lock environment. -/
theorem C3_witness :
    ({ envW with lockFree := false } : Env).lockFree = false ∧
    (resWorld (runEnsure cfgW { envW with lockFree := false } true true wOn) = wOn ∧
      resultCheck (fun code p _w' =>
          (code == 202) && (p.busy == true) && (p.changed == false) && (p.ok == false) &&
          (p.applied == none) && (p.mode_ok == none) && (p.message == "switch_in_progress"))
        (runEnsure cfgW { envW with lockFree := false } true true wOn) = true) :=
  ⟨rfl, C3_busy_no_mutation cfgW { envW with lockFree := false } true true wOn rfl⟩

/-! ### Inversion lemmas for the restart and apply sections -/

/-- On a normal return the restart section's value is exactly
`force || !running`. -/
theorem restart_section_ok_val (cfg : Config) (env : Env) (force running : Bool)
    (w w' : World) (b : Bool)
    (h : (restart_section cfg env force running).run w = .ok b w') :
    b = (force || !running) := by
  unfold restart_section at h
  by_cases hc : (force || !running) = true
  · rw [if_pos hc] at h
    rw [run_bindM] at h
    cases hd : (desktop_stack cfg env (if force then "restart" else "start")).run w with
    | error e w2 => rw [hd] at h; simp at h
    | ok ok_stack w2 =>
      rw [hd] at h
      simp only [run_bindM, run_modifyM] at h
      by_cases hos : ok_stack = true
      · rw [if_pos hos] at h
        rw [run_bindM] at h
        cases hx : (wait_x_ready cfg env).run
            { w2 with st := { w2.st with last_switch_ts := env.nowSwitch } } with
        | error e w3 => rw [hx] at h; simp at h
        | ok xv w3 =>
          rw [hx] at h
          simp only [run_pureM, EStateM.Result.ok.injEq] at h
          rw [← h.1, hc]
      · rw [if_neg hos] at h
        simp only [run_pureM, EStateM.Result.ok.injEq] at h
        rw [← h.1, hc]
  · rw [if_neg hc] at h
    simp only [run_pureM, EStateM.Result.ok.injEq] at h
    have hc' : (force || !running) = false := by simpa using hc
    rw [← h.1, hc']

/-- On a normal return of the apply section: the first component is exactly
`apply_needed`; a successful-or-skipped mode result means the stored mode now
equals the desired mode; the mode state is rewritten exactly when an apply
was attempted and succeeded, and is untouched otherwise. -/
theorem apply_section_ok_inv (cfg : Config) (env : Env) (d : String)
    (force restarted : Bool) (w w' : World) (r : Bool × Bool × String)
    (h : (apply_section cfg env d force restarted).run w = .ok r w') :
    r.1 = (force || restarted || !(w.st.current_mode == d)) ∧
    (r.2.1 = true → w'.st.current_mode = d) ∧
    ((r.1 = true ∧ r.2.1 = true) →
      w'.st.current_mode = d ∧ w'.st.last_apply_ts = env.nowApply) ∧
    (¬(r.1 = true ∧ r.2.1 = true) → w'.st = w.st) := by
  rw [apply_section_run] at h
  by_cases hn : (force || restarted || !(w.st.current_mode == d)) = true
  · rw [if_pos hn] at h
    by_cases hk : env.kioskScriptExists = true
    · rw [if_pos hk] at h
      cases ho : env.kioskOut with
      | ret rc out err =>
        simp only [ho] at h
        by_cases hrc : (rc == 0) = true
        · rw [if_pos hrc] at h
          simp only [EStateM.Result.ok.injEq] at h
          refine ⟨by rw [← h.1, hn], ?_, ?_, ?_⟩
          · intro _; rw [← h.2]
          · intro _; rw [← h.2]; exact ⟨rfl, rfl⟩
          · intro hcon; exact absurd ⟨by rw [← h.1], by rw [← h.1]⟩ hcon
        · rw [if_neg hrc] at h
          have hrc' : (rc == 0) = false := by simpa using hrc
          simp only [EStateM.Result.ok.injEq] at h
          refine ⟨by rw [← h.1, hn], ?_, ?_, ?_⟩
          · intro hb; rw [← h.1] at hb; simp [hrc'] at hb
          · intro hb; rw [← h.1] at hb; simp [hrc'] at hb
          · intro _; rw [← h.2]
      | timeout => simp only [ho] at h; simp at h
      | notFound => simp only [ho] at h; simp at h
    · rw [if_neg hk] at h
      simp only [EStateM.Result.ok.injEq] at h
      refine ⟨by rw [← h.1, hn], ?_, ?_, ?_⟩
      · intro hb; rw [← h.1] at hb; simp at hb
      · intro hb; rw [← h.1] at hb; simp at hb
      · intro _; rw [← h.2]
  · rw [if_neg hn] at h
    have hn' : (force || restarted || !(w.st.current_mode == d)) = false := by simpa using hn
    have hcm : w.st.current_mode = d := by
      cases hfe : (w.st.current_mode == d) with
      | true => exact eq_of_beq hfe
      | false => rw [hfe] at hn'; simp at hn'
    simp only [EStateM.Result.ok.injEq] at h
    refine ⟨by rw [← h.1, hn'], ?_, ?_, ?_⟩
    · intro _; rw [← h.2]; exact hcm
    · intro hb; rw [← h.1] at hb; simp at hb
    · intro _; rw [← h.2]

/-- On an exceptional exit of the apply section the mode state is untouched
(only the kiosk-invocation counter may have moved). -/
theorem apply_section_err_inv (cfg : Config) (env : Env) (d : String)
    (force restarted : Bool) (w w' : World) (e : PyExc)
    (h : (apply_section cfg env d force restarted).run w = .error e w') :
    w'.st = w.st := by
  rw [apply_section_run] at h
  by_cases hn : (force || restarted || !(w.st.current_mode == d)) = true
  · rw [if_pos hn] at h
    by_cases hk : env.kioskScriptExists = true
    · rw [if_pos hk] at h
      cases ho : env.kioskOut with
      | ret rc out err =>
        simp only [ho] at h
        by_cases hrc : (rc == 0) = true
        · rw [if_pos hrc] at h; simp at h
        · rw [if_neg hrc] at h; simp at h
      | timeout =>
        simp only [ho] at h
        simp only [EStateM.Result.error.injEq] at h
        rw [← h.2]
      | notFound =>
        simp only [ho] at h
        simp only [EStateM.Result.error.injEq] at h
        rw [← h.2]
    · rw [if_neg hk] at h; simp at h
  · rw [if_neg hn] at h; simp at h

/-! ### Claim C10 -/

/-- C10: in every non-busy normally-returning call the `applied` response
field equals `apply_needed = force || changed || (pre-call current mode !=
desired mode)` — whether an apply was *attempted*, not whether it succeeded.
`applied = true` together with `mode_ok = false` and `ok = false` is
possible (see the witness), so `applied = true` does not mean the mode was
actually applied. -/
theorem C10_applied_means_attempted (cfg : Config) (env : Env) (force want : Bool) (w : World)
    (h1 : env.lockFree = true) :
    resultCheck (fun _code p _w' =>
        p.applied == some (force || p.changed || !(w.st.current_mode == desiredStr want)))
      (runEnsure cfg env force want w) = true := by
  rw [runEnsure_main cfg env force want w h1]
  rw [run_bindM, supervisor_status_map_run]
  cases hs : statusOf env.statusOut1 with
  | error e => rfl
  | ok m =>
    simp only [run_bindM]
    cases hr : (restart_section cfg env force (stack_running cfg m)).run w with
    | error e w2 => simp only [hr]; rfl
    | ok restarted w2 =>
      simp only [hr, run_bindM]
      have hmv := wpres_restart_section cfg env force (stack_running cfg m) w
      rw [hr] at hmv
      simp only [resWorld_ok] at hmv
      have hcm : w2.st.current_mode = w.st.current_mode := congrArg (fun t => t.1) hmv
      cases ha : (apply_section cfg env (desiredStr want) force restarted).run w2 with
      | error e w3 => simp only [ha]; rfl
      | ok r w3 =>
        simp only [ha]
        obtain ⟨hval, -, -, -⟩ :=
          apply_section_ok_inv cfg env (desiredStr want) force restarted w2 w3 r ha
        rw [finish_section_run]
        cases statusOf env.statusOut2 with
        | error e => rfl
        | ok m2 => simp [resultCheck, finishPure, hval, hcm]

/-- Witness for C10: a forced call with the kiosk script missing returns
`applied = true`, `mode_ok = false`, `ok = false` — an attempted, failed
apply — and the general `applied = apply_needed` equation holds there. -/
theorem C10_witness :
    ({ envW with kioskScriptExists := false } : Env).lockFree = true ∧
    resultCheck (fun _code p _w' =>
        (p.applied == some true) && (modeOkFlag p == false) && (p.ok == false))
      (runEnsure cfgW { envW with kioskScriptExists := false } true true wInit) = true ∧
    resultCheck (fun _code p _w' =>
        p.applied == some (true || p.changed || !(wInit.st.current_mode == desiredStr true)))
      (runEnsure cfgW { envW with kioskScriptExists := false } true true wInit) = true :=
  ⟨rfl, by decide,
   C10_applied_means_attempted cfgW { envW with kioskScriptExists := false } true true wInit rfl⟩

/-! ### Claim C2 -/

/-- C2: every non-busy normally-returning call satisfies, on its returned
payload: `ok` equals `running && mode_ok && (current_mode == desired_mode)`
where `running` comes from the fresh post-apply snapshot and `current_mode`
is the post-apply stored mode; the status hint is 200 exactly when `ok` is
true and 202 otherwise; the reported `current_mode` is the final stored
mode; and whenever the mode apply succeeded or was skipped
(`mode_ok = true`), the reported `current_mode` equals the requested mode —
so a successful apply with the stack running yields `ok = true` / 200. -/
theorem C2_ok_success_predicate (cfg : Config) (env : Env) (force want : Bool) (w : World)
    (h1 : env.lockFree = true) :
    resultCheck (fun code p w' =>
        (p.ok == (p.base.running && modeOkFlag p && (p.base.current_mode == desiredStr want))) &&
        (code == if p.ok then 200 else 202) &&
        (p.base.current_mode == w'.st.current_mode) &&
        (!(modeOkFlag p) || (p.base.current_mode == desiredStr want)))
      (runEnsure cfg env force want w) = true := by
  rw [runEnsure_main cfg env force want w h1]
  rw [run_bindM, supervisor_status_map_run]
  cases hs : statusOf env.statusOut1 with
  | error e => rfl
  | ok m =>
    simp only [run_bindM]
    cases hr : (restart_section cfg env force (stack_running cfg m)).run w with
    | error e w2 => simp only [hr]; rfl
    | ok restarted w2 =>
      simp only [hr, run_bindM]
      cases ha : (apply_section cfg env (desiredStr want) force restarted).run w2 with
      | error e w3 => simp only [ha]; rfl
      | ok r w3 =>
        simp only [ha]
        obtain ⟨-, hmode, -, -⟩ :=
          apply_section_ok_inv cfg env (desiredStr want) force restarted w2 w3 r ha
        rw [finish_section_run]
        cases statusOf env.statusOut2 with
        | error e => rfl
        | ok m2 =>
          simp only [resultCheck, finishPure, basePayloadOf, modeOkFlag]
          cases hb : r.2.1 with
          | false => simp [hb]
          | true =>
            have hcm3 : w3.st.current_mode = desiredStr want := hmode hb
            simp [hb, hcm3]

/-- Witness for C2: a successful forced apply with the stack running. -/
theorem C2_witness :
    envW.lockFree = true ∧
    resultCheck (fun code p w' =>
        (p.ok == (p.base.running && modeOkFlag p && (p.base.current_mode == desiredStr true))) &&
        (code == if p.ok then 200 else 202) &&
        (p.base.current_mode == w'.st.current_mode) &&
        (!(modeOkFlag p) || (p.base.current_mode == desiredStr true)))
      (runEnsure cfgW envW true true wInit) = true ∧
    resultCheck (fun code p _w' => (p.ok == true) && (code == 200))
      (runEnsure cfgW envW true true wInit) = true :=
  ⟨rfl, C2_ok_success_predicate cfgW envW true true wInit rfl, by decide⟩

/-- When an apply is needed but the kiosk script path is absent, the apply
section fails fast: no process spawn, no state change, result
`(applied, ok_mode, msg) = (true, false, missing_script:...)`. -/
theorem apply_section_missing_run (cfg : Config) (env : Env) (d : String)
    (force restarted : Bool) (w : World)
    (hk : env.kioskScriptExists = false)
    (hn : (force || restarted || !(w.st.current_mode == d)) = true) :
    (apply_section cfg env d force restarted).run w =
      .ok (true, false, "missing_script:" ++ cfg.kioskScript) w := by
  rw [apply_section_run, if_pos hn, if_neg (by simp [hk])]

/-- A forced apply with the script present spawns the kiosk script exactly
once, whether it exits zero, non-zero, or raises. -/
theorem apply_section_forced_kiosk (cfg : Config) (env : Env) (d : String)
    (restarted : Bool) (w : World)
    (hk : env.kioskScriptExists = true) :
    (resWorld ((apply_section cfg env d true restarted).run w)).kioskInvocations =
      w.kioskInvocations + 1 := by
  rw [apply_section_run]
  rw [if_pos (by simp : (true || restarted || !(w.st.current_mode == d)) = true)]
  rw [if_pos hk]
  cases env.kioskOut with
  | ret rc out err => split <;> first | rfl | (split <;> rfl)
  | timeout => rfl
  | notFound => rfl

/-! ### Claim C5 -/

/-- C5: if the mode-toggle script path does not exist, `set_kiosk_mode`
fails immediately with the descriptive `missing_script:` message and
unchanged world (no process spawned); and a non-busy `ensure_ready` call
that needs an apply (forced, or stack not running in the first snapshot, or
stored mode differing from the desired mode) leaves `_current_mode` at its
pre-call value, spawns the kiosk script zero times, and on normal return
reports status 202 with `ok = false` and `mode_ok = false`. -/
theorem C5_missing_script (cfg : Config) (env : Env) (force want : Bool) (w : World)
    (h1 : env.lockFree = true)
    (h2 : env.kioskScriptExists = false)
    (h3 : force = true ∨ firstSnapshotRunning cfg env = false ∨
      w.st.current_mode ≠ desiredStr want) :
    ((set_kiosk_mode cfg env (desiredStr want)).run w =
      .ok (false, "missing_script:" ++ cfg.kioskScript) w) ∧
    (resWorld (runEnsure cfg env force want w)).st.current_mode = w.st.current_mode ∧
    (resWorld (runEnsure cfg env force want w)).kioskInvocations = w.kioskInvocations ∧
    resultCheck (fun code p _w' =>
        (code == 202) && (p.ok == false) && (modeOkFlag p == false))
      (runEnsure cfg env force want w) = true := by
  refine ⟨by rw [set_kiosk_mode_run, if_neg (by simp [h2])], ?_⟩
  rw [runEnsure_main cfg env force want w h1]
  rw [run_bindM, supervisor_status_map_run]
  cases hs : statusOf env.statusOut1 with
  | error e => exact ⟨rfl, rfl, rfl⟩
  | ok m =>
    simp only [run_bindM]
    cases hr : (restart_section cfg env force (stack_running cfg m)).run w with
    | error e w2 =>
      simp only [hr]
      have hmv := wpres_restart_section cfg env force (stack_running cfg m) w
      rw [hr] at hmv
      simp only [resWorld_error] at hmv
      exact ⟨congrArg (fun t => t.1) hmv, congrArg (fun t => t.2.2) hmv, rfl⟩
    | ok restarted w2 =>
      simp only [hr, run_bindM]
      have hmv := wpres_restart_section cfg env force (stack_running cfg m) w
      rw [hr] at hmv
      simp only [resWorld_ok] at hmv
      have hcm2 : w2.st.current_mode = w.st.current_mode := congrArg (fun t => t.1) hmv
      have hk2 : w2.kioskInvocations = w.kioskInvocations := congrArg (fun t => t.2.2) hmv
      have hn : (force || restarted || !(w2.st.current_mode == desiredStr want)) = true := by
        rcases h3 with h3 | h3 | h3
        · simp [h3]
        · have hrun : stack_running cfg m = false := by
            simpa [firstSnapshotRunning, hs] using h3
          have hres := restart_section_ok_val cfg env force (stack_running cfg m) w w2
            restarted hr
          rw [hrun] at hres
          simp only [Bool.not_false, Bool.or_true] at hres
          simp [hres]
        · have hbne : (w2.st.current_mode == desiredStr want) = false := by
            rw [hcm2]
            exact beq_eq_false_iff_ne.mpr h3
          simp [hbne]
      simp only [apply_section_missing_run cfg env (desiredStr want) force restarted w2 h2 hn]
      rw [finish_section_run]
      cases statusOf env.statusOut2 with
      | error e => exact ⟨hcm2, hk2, rfl⟩
      | ok m2 =>
        refine ⟨hcm2, hk2, ?_⟩
        simp [resultCheck, finishPure, modeOkFlag]

/-- Witness for C5: a wanted-kiosk call from mode "unknown" with the script
path absent. -/
theorem C5_witness :
    ({ envW with kioskScriptExists := false } : Env).lockFree = true ∧
    ({ envW with kioskScriptExists := false } : Env).kioskScriptExists = false ∧
    wInit.st.current_mode ≠ desiredStr true ∧
    (((set_kiosk_mode cfgW { envW with kioskScriptExists := false } (desiredStr true)).run wInit =
        .ok (false, "missing_script:" ++ cfgW.kioskScript) wInit) ∧
      (resWorld (runEnsure cfgW { envW with kioskScriptExists := false } false true wInit)).st.current_mode
        = wInit.st.current_mode ∧
      (resWorld (runEnsure cfgW { envW with kioskScriptExists := false } false true wInit)).kioskInvocations
        = wInit.kioskInvocations ∧
      resultCheck (fun code p _w' =>
          (code == 202) && (p.ok == false) && (modeOkFlag p == false))
        (runEnsure cfgW { envW with kioskScriptExists := false } false true wInit) = true) :=
  ⟨rfl, rfl, by decide,
   C5_missing_script cfgW { envW with kioskScriptExists := false } false true wInit rfl rfl
     (Or.inr (Or.inr (by decide)))⟩

/-! ### Claim C6 -/

/-- C6: `_current_mode` and `_last_apply_ts` are mutated only after a
successful mode apply.  In every run — busy, normal or exceptional — the
final mode state is either exactly the pre-call one, or exactly
`(desired_mode, nowApply)`; and a normal return rewrote it to the desired
mode precisely in the applied-and-succeeded case (`applied = true` and
`mode_ok = true`), leaving it untouched when the apply failed or was
skipped. -/
theorem C6_mode_state_only_on_success (cfg : Config) (env : Env) (force want : Bool)
    (w : World) :
    (((resWorld (runEnsure cfg env force want w)).st.current_mode = w.st.current_mode ∧
       (resWorld (runEnsure cfg env force want w)).st.last_apply_ts = w.st.last_apply_ts) ∨
      ((resWorld (runEnsure cfg env force want w)).st.current_mode = desiredStr want ∧
       (resWorld (runEnsure cfg env force want w)).st.last_apply_ts = env.nowApply)) ∧
    resultCheck (fun _code p w' =>
        if appliedFlag p && modeOkFlag p then
          (w'.st.current_mode == desiredStr want) && (w'.st.last_apply_ts == env.nowApply)
        else
          (w'.st.current_mode == w.st.current_mode) &&
            (w'.st.last_apply_ts == w.st.last_apply_ts))
      (runEnsure cfg env force want w) = true := by
  by_cases h1 : env.lockFree = true
  · rw [runEnsure_main cfg env force want w h1]
    rw [run_bindM, supervisor_status_map_run]
    cases hs : statusOf env.statusOut1 with
    | error e => exact ⟨Or.inl ⟨rfl, rfl⟩, rfl⟩
    | ok m =>
      simp only [run_bindM]
      cases hr : (restart_section cfg env force (stack_running cfg m)).run w with
      | error e w2 =>
        simp only [hr]
        have hmv := wpres_restart_section cfg env force (stack_running cfg m) w
        rw [hr] at hmv
        simp only [resWorld_error] at hmv
        exact ⟨Or.inl ⟨congrArg (fun t => t.1) hmv, congrArg (fun t => t.2.1) hmv⟩, rfl⟩
      | ok restarted w2 =>
        simp only [hr, run_bindM]
        have hmv := wpres_restart_section cfg env force (stack_running cfg m) w
        rw [hr] at hmv
        simp only [resWorld_ok] at hmv
        have hcm2 : w2.st.current_mode = w.st.current_mode := congrArg (fun t => t.1) hmv
        have hts2 : w2.st.last_apply_ts = w.st.last_apply_ts := congrArg (fun t => t.2.1) hmv
        cases ha : (apply_section cfg env (desiredStr want) force restarted).run w2 with
        | error e w3 =>
          simp only [ha]
          have hst := apply_section_err_inv cfg env (desiredStr want) force restarted w2 w3 e ha
          exact ⟨Or.inl ⟨by rw [resWorld_error, hst]; exact hcm2,
            by rw [resWorld_error, hst]; exact hts2⟩, rfl⟩
        | ok r w3 =>
          simp only [ha]
          obtain ⟨hval, hmode, hsucc, hfail⟩ :=
            apply_section_ok_inv cfg env (desiredStr want) force restarted w2 w3 r ha
          rw [finish_section_run]
          by_cases hb : r.1 = true ∧ r.2.1 = true
          · have hset := hsucc hb
            cases statusOf env.statusOut2 with
            | error e => exact ⟨Or.inr ⟨hset.1, hset.2⟩, rfl⟩
            | ok m2 =>
              refine ⟨Or.inr ⟨hset.1, hset.2⟩, ?_⟩
              simp [resultCheck, finishPure, appliedFlag, modeOkFlag, hb.1, hb.2,
                hset.1, hset.2]
          · have hst := hfail hb
            have hbb : (r.1 && r.2.1) = false := by
              cases hr1 : r.1 <;> cases hr2 : r.2.1 <;> simp_all
            cases statusOf env.statusOut2 with
            | error e =>
              exact ⟨Or.inl ⟨by rw [resWorld_error, hst]; exact hcm2,
                by rw [resWorld_error, hst]; exact hts2⟩, rfl⟩
            | ok m2 =>
              refine ⟨Or.inl ⟨by rw [resWorld_ok, hst]; exact hcm2,
                by rw [resWorld_ok, hst]; exact hts2⟩, ?_⟩
              have e1 : w3.st.current_mode = w.st.current_mode := by rw [hst]; exact hcm2
              have e2 : w3.st.last_apply_ts = w.st.last_apply_ts := by rw [hst]; exact hts2
              simp [resultCheck, finishPure, appliedFlag, modeOkFlag, hbb, e1, e2]
  · have hf : env.lockFree = false := by simpa using h1
    rw [runEnsure_busy cfg env force want w hf]
    cases statusOf env.statusOut1 with
    | error e => exact ⟨Or.inl ⟨rfl, rfl⟩, rfl⟩
    | ok m =>
      exact ⟨Or.inl ⟨rfl, rfl⟩, by simp [resultCheck, busyPayload, appliedFlag, modeOkFlag]⟩

/-! ### Claim C9 -/

/-- C9: every non-busy normally-returning forced call with the kiosk script
present spawns the mode-toggle program exactly once, whatever mode is
stored in `_current_mode`. -/
theorem C9_forced_invokes_once (cfg : Config) (env : Env) (want : Bool) (w : World)
    (h1 : env.lockFree = true)
    (h2 : env.kioskScriptExists = true)
    (h3 : resIsOk (runEnsure cfg env true want w) = true) :
    (resWorld (runEnsure cfg env true want w)).kioskInvocations = w.kioskInvocations + 1 := by
  rw [runEnsure_main cfg env true want w h1] at h3 ⊢
  rw [run_bindM, supervisor_status_map_run] at h3 ⊢
  cases hs : statusOf env.statusOut1 with
  | error e => simp only [hs] at h3; simp [resIsOk] at h3
  | ok m =>
    simp only [hs, run_bindM] at h3
    simp only [run_bindM]
    cases hr : (restart_section cfg env true (stack_running cfg m)).run w with
    | error e w2 => simp only [hr] at h3; simp [resIsOk] at h3
    | ok restarted w2 =>
      simp only [hr] at h3 ⊢
      have hmv := wpres_restart_section cfg env true (stack_running cfg m) w
      rw [hr] at hmv
      simp only [resWorld_ok] at hmv
      have hk2 : w2.kioskInvocations = w.kioskInvocations := congrArg (fun t => t.2.2) hmv
      have hap := apply_section_forced_kiosk cfg env (desiredStr want) restarted w2 h2
      cases ha : (apply_section cfg env (desiredStr want) true restarted).run w2 with
      | error e w3 => simp only [ha] at h3; simp [resIsOk] at h3
      | ok r w3 =>
        simp only [ha] at h3 ⊢
        rw [ha] at hap
        simp only [resWorld_ok] at hap
        rw [finish_section_run] at h3 ⊢
        cases hs2 : statusOf env.statusOut2 with
        | error e => simp only [hs2] at h3; simp [resIsOk] at h3
        | ok m2 =>
          rw [resWorld_ok, hap, hk2]

/-- Witness for C9: a forced kiosk call from a state already in mode "on"
still spawns the script exactly once. -/
theorem C9_witness :
    envW.lockFree = true ∧ envW.kioskScriptExists = true ∧
    resIsOk (runEnsure cfgW envW true true wOn) = true ∧
    (resWorld (runEnsure cfgW envW true true wOn)).kioskInvocations =
      wOn.kioskInvocations + 1 :=
  ⟨rfl, rfl, by decide, C9_forced_invokes_once cfgW envW true wOn rfl rfl (by decide)⟩

/-! ### Claim C4: totality in the absence of timeouts -/

/-- The computation returns normally from every starting world. -/
def Total {α : Type} (x : M α) : Prop := ∀ w, resIsOk (x.run w) = true

theorem Total.bindT {α β : Type} {x : M α} {f : α → M β}
    (hx : Total x) (hf : ∀ a, Total (f a)) : Total (x >>= f) := by
  intro w
  rw [run_bindM]
  cases h : x.run w with
  | ok a w' => exact hf a w'
  | error e w' =>
    have hw := hx w
    rw [h] at hw
    simp [resIsOk] at hw

theorem Total.pureT {α : Type} (a : α) : Total (pure a : M α) := fun _ => rfl

theorem Total.modifyT (f : World → World) : Total (modify f : M Unit) := fun _ => rfl

theorem Total.getT : Total (get : M World) := fun _ => rfl

theorem Total.mapT {α β : Type} (f : α → β) {x : M α} (hx : Total x) :
    Total (f <$> x) := by
  intro w
  rw [run_mapM]
  cases h : x.run w with
  | ok a w' => rfl
  | error e w' =>
    have hw := hx w
    rw [h] at hw
    simp [resIsOk] at hw

theorem Total.iteT {α : Type} (c : Prop) [Decidable c] {x y : M α}
    (hx : Total x) (hy : Total y) : Total (if c then x else y) := by
  by_cases h : c
  · simpa [h] using hx
  · simpa [h] using hy

theorem total_runCmd (o : CmdOutcome) (ho : o.isRet = true) : Total (runCmd o) := by
  cases o with
  | ret rc out err => exact fun _ => rfl
  | timeout => simp [CmdOutcome.isRet] at ho
  | notFound => simp [CmdOutcome.isRet] at ho

theorem total_statusMap (o : CmdOutcome) (ho : o.isRet = true) :
    Total (supervisor_status_map o) := by
  intro w
  rw [supervisor_status_map_run]
  cases o with
  | ret rc out err => exact rfl
  | timeout => simp [CmdOutcome.isRet] at ho
  | notFound => simp [CmdOutcome.isRet] at ho

theorem total_stop (o : CmdOutcome) (ho : o.isRet = true) : Total (supervisor_stop o) := by
  cases o with
  | ret rc out err => exact fun _ => rfl
  | timeout => simp [CmdOutcome.isRet] at ho
  | notFound => simp [CmdOutcome.isRet] at ho

theorem total_start (o : CmdOutcome) (ho : o.isRet = true) : Total (supervisor_start o) := by
  cases o with
  | ret rc out err => exact fun _ => rfl
  | timeout => simp [CmdOutcome.isRet] at ho
  | notFound => simp [CmdOutcome.isRet] at ho

theorem total_waitStack (cfg : Config) (polls : List CmdOutcome)
    (hp : ∀ o ∈ polls, o.isRet = true) : Total (wait_stack_ready cfg polls) := by
  induction polls with
  | nil => exact fun _ => rfl
  | cons o polls ih =>
    rw [wait_stack_ready]
    refine Total.bindT (total_statusMap o (hp o (by simp))) fun st => ?_
    exact Total.iteT _ (Total.pureT _) (ih fun o' ho' => hp o' (by simp [ho']))

theorem total_runStopLoop (env : Env) (hstops : ∀ i, (env.stopOut i).isRet = true) :
    ∀ (i : Nat) (names : List String), Total (runStopLoop env i names) := by
  intro i names
  induction names generalizing i with
  | nil => exact fun _ => rfl
  | cons s names ih =>
    rw [runStopLoop]
    exact Total.bindT (total_stop _ (hstops i)) fun _ => ih (i + 1)

theorem total_runStartLoop (env : Env) (hstarts : ∀ i, (env.startOut i).isRet = true) :
    ∀ (i : Nat) (names : List String), Total (runStartLoop env i names) := by
  intro i names
  induction names generalizing i with
  | nil => exact fun _ => rfl
  | cons s names ih =>
    rw [runStartLoop]
    exact Total.bindT (total_start _ (hstarts i)) fun _ => ih (i + 1)

theorem total_desktop_stack (cfg : Config) (env : Env) (action0 : String)
    (hstops : ∀ i, (env.stopOut i).isRet = true)
    (hstarts : ∀ i, (env.startOut i).isRet = true)
    (hwaits : ∀ o ∈ env.waitPolls, o.isRet = true) :
    Total (desktop_stack cfg env action0) := by
  unfold desktop_stack
  by_cases h1 : pyStrip (pyLower action0) = "stop" <;> simp [h1]
  · exact Total.bindT (total_runStopLoop env hstops 0 _) fun _ => Total.pureT _
  · by_cases h2 : pyStrip (pyLower action0) = "start" <;> simp [h2]
    · exact Total.bindT (total_runStartLoop env hstarts 0 _) fun _ =>
        total_waitStack cfg _ hwaits
    · exact Total.bindT (total_runStopLoop env hstops 0 _) fun _ =>
        Total.bindT (total_runStartLoop env hstarts 0 _) fun _ =>
        total_waitStack cfg _ hwaits

theorem total_runXProbe (o : CmdOutcome) (ho : o ≠ CmdOutcome.timeout) :
    Total (runXProbe o) := by
  cases o with
  | ret rc out err => exact fun _ => rfl
  | timeout => exact absurd rfl ho
  | notFound => exact fun _ => rfl

theorem total_waitXCustom (polls : List CmdOutcome) (hp : ∀ o ∈ polls, o.isRet = true) :
    Total (waitXCustomLoop polls) := by
  induction polls with
  | nil => exact fun _ => rfl
  | cons o polls ih =>
    rw [waitXCustomLoop]
    refine Total.bindT (total_runCmd o (hp o (by simp))) fun t => ?_
    exact Total.iteT _ (Total.pureT _) (ih fun o' ho' => hp o' (by simp [ho']))

theorem total_waitXProbe (polls : List (CmdOutcome × CmdOutcome))
    (hp : ∀ pr ∈ polls, pr.1 ≠ CmdOutcome.timeout ∧ pr.2 ≠ CmdOutcome.timeout) :
    Total (waitXProbeLoop polls) := by
  induction polls with
  | nil => exact fun _ => rfl
  | cons pr polls ih =>
    rw [waitXProbeLoop]
    refine Total.bindT (total_runXProbe pr.1 (hp pr (by simp)).1) fun rc1 => ?_
    refine Total.iteT _ (Total.pureT _) ?_
    refine Total.bindT (total_runXProbe pr.2 (hp pr (by simp)).2) fun rc2 => ?_
    exact Total.iteT _ (Total.pureT _) (ih fun pr' hpr' => hp pr' (by simp [hpr']))

theorem total_waitX (cfg : Config) (env : Env)
    (hc : ∀ o ∈ env.xCustomPolls, o.isRet = true)
    (hx : ∀ pr ∈ env.xProbePolls, pr.1 ≠ CmdOutcome.timeout ∧ pr.2 ≠ CmdOutcome.timeout) :
    Total (wait_x_ready cfg env) := by
  unfold wait_x_ready
  by_cases h : X_READY_CMD cfg ≠ "" <;> simp [h]
  · exact total_waitXCustom env.xCustomPolls hc
  · exact total_waitXProbe env.xProbePolls hx

theorem total_restart_section (cfg : Config) (env : Env) (force running : Bool)
    (hstops : ∀ i, (env.stopOut i).isRet = true)
    (hstarts : ∀ i, (env.startOut i).isRet = true)
    (hwaits : ∀ o ∈ env.waitPolls, o.isRet = true)
    (hc : ∀ o ∈ env.xCustomPolls, o.isRet = true)
    (hx : ∀ pr ∈ env.xProbePolls, pr.1 ≠ CmdOutcome.timeout ∧ pr.2 ≠ CmdOutcome.timeout) :
    Total (restart_section cfg env force running) := by
  unfold restart_section
  refine Total.iteT _ ?_ (Total.pureT _)
  refine Total.bindT (total_desktop_stack cfg env _ hstops hstarts hwaits) fun ok_stack => ?_
  refine Total.bindT (Total.modifyT _) fun _ => ?_
  refine Total.iteT _ ?_ (Total.pureT _)
  exact Total.bindT (total_waitX cfg env hc hx) fun _ => Total.pureT _

theorem total_apply_section (cfg : Config) (env : Env) (d : String)
    (force restarted : Bool) (hk : env.kioskOut.isRet = true) :
    Total (apply_section cfg env d force restarted) := by
  intro w
  rw [apply_section_run]
  by_cases hn : (force || restarted || !(w.st.current_mode == d)) = true
  · rw [if_pos hn]
    by_cases hks : env.kioskScriptExists = true
    · rw [if_pos hks]
      cases ho : env.kioskOut with
      | ret rc out err => split <;> first | rfl | (split <;> rfl) | simp_all
      | timeout => rw [ho] at hk; simp [CmdOutcome.isRet] at hk
      | notFound => rw [ho] at hk; simp [CmdOutcome.isRet] at hk
    · rw [if_neg hks]; rfl
  · rw [if_neg hn]; rfl

theorem total_finish_section (cfg : Config) (env : Env) (d : String) (restarted : Bool)
    (r : Bool × Bool × String) (h2 : env.statusOut2.isRet = true) :
    Total (finish_section cfg env d restarted r) := by
  intro w
  rw [finish_section_run]
  cases ho : env.statusOut2 with
  | ret rc out err => exact rfl
  | timeout => rw [ho] at h2; simp [CmdOutcome.isRet] at h2
  | notFound => rw [ho] at h2; simp [CmdOutcome.isRet] at h2

/-- Every external outcome an `ensure_ready` call may consume completes
without raising: status queries, stops, starts, stack polls and the kiosk
script all return normally, and no X probe tick times out (a missing probe
binary is fine — that exception is caught). -/
structure EnvNoTimeout (env : Env) : Prop where
  status1 : env.statusOut1.isRet = true
  status2 : env.statusOut2.isRet = true
  stops : ∀ i, (env.stopOut i).isRet = true
  starts : ∀ i, (env.startOut i).isRet = true
  waits : ∀ o ∈ env.waitPolls, o.isRet = true
  xcustom : ∀ o ∈ env.xCustomPolls, o.isRet = true
  xprobes : ∀ pr ∈ env.xProbePolls,
    pr.1 ≠ CmdOutcome.timeout ∧ pr.2 ≠ CmdOutcome.timeout
  kiosk : env.kioskOut.isRet = true

/-- C4 counterexample: the claim "every external call exceeding its deadline
is a soft failure folded into `ok`, and `ensure_ready` never raises" is
false on the code: when the first supervisor status query times out,
`subprocess.run` raises `TimeoutExpired`, nothing inside `ensure_ready`
catches it, and the call produces no `(status, payload)` result at all. -/
theorem C4_counterexample :
    runEnsure cfgW { envW with statusOut1 := CmdOutcome.timeout } false true wInit =
      .error PyExc.timeoutExpired wInit := rfl

/-- C4 (amended): non-zero exit statuses of bounded external calls are soft
failures folded into the `ok` computation, and when no external call raises
(no timeout anywhere, and executables present except where caught),
`ensure_ready` always returns a well-formed `(statusHint, payload)` result;
but a timeout raises `TimeoutExpired` through `ensure_ready` to its caller
(the HTTP boundary handler). -/
theorem C4_no_timeout_returns (cfg : Config) (env : Env) (force want : Bool) (w : World)
    (h : EnvNoTimeout env) :
    resIsOk (runEnsure cfg env force want w) = true := by
  by_cases hl : env.lockFree = true
  · rw [runEnsure_main cfg env force want w hl]
    refine (Total.bindT (total_statusMap _ h.status1) fun st => ?_) w
    refine Total.bindT (total_restart_section cfg env force _ h.stops h.starts h.waits
      h.xcustom h.xprobes) fun restarted => ?_
    refine Total.bindT (total_apply_section cfg env _ force restarted h.kiosk) fun r => ?_
    exact total_finish_section cfg env _ restarted r h.status2
  · have hf : env.lockFree = false := by simpa using hl
    rw [runEnsure_busy cfg env force want w hf]
    cases ho : env.statusOut1 with
    | ret rc out err => exact rfl
    | timeout => have := h.status1; rw [ho] at this; simp [CmdOutcome.isRet] at this
    | notFound => have := h.status1; rw [ho] at this; simp [CmdOutcome.isRet] at this

/-- Witness for the amended C4 on a benign environment. -/
theorem C4_witness :
    EnvNoTimeout envW ∧ resIsOk (runEnsure cfgW envW false false wInit) = true :=
  ⟨⟨rfl, rfl, fun _ => rfl, fun _ => rfl, by decide, by decide, by decide, rfl⟩,
   C4_no_timeout_returns cfgW envW false false wInit
     ⟨rfl, rfl, fun _ => rfl, fun _ => rfl, by decide, by decide, by decide, rfl⟩⟩

end ToolbarApi
